import Mathlib

/-!
Verification model of the REST call core duplicated across
`src/utils/zendesk_utils.py` (`ZendeskClient`) and
`src/utils/custom_apilib_base.py` (`CustomApiLibBase`).  The two copies are
line-for-line identical in every piece of logic modelled here (status
classification, retry handling, pagination-cursor derivation,
incremental-export suppression, per-page result selection, response-data
merging, and the per-call retry-field save/restore); the embedding cites the
line numbers of the Zendesk copy and applies verbatim to the other copy.

Python values are modelled by the `Value` type; the embedding is
value-semantic (the Python source mutates accumulator lists in place, which
coincides with value semantics whenever the merged pages are distinct
objects, which is what the pagination loop itself produces).  Exceptions are
modelled with `Except`, the scripted HTTP transport with a list of per-attempt
events, and observable side effects (requests issued, backoff sleeps) with an
effect trace.
-/

/-- JSON-ish Python value as handled by the client: `None`, booleans,
integers, strings, raw byte strings (`response.content`), lists, and dicts
(dicts modelled as insertion-ordered association lists with unique keys). -/
inductive Value where
  | null : Value
  | bool : Bool → Value
  | num : Int → Value
  | str : String → Value
  | bytes : String → Value
  | list : List Value → Value
  | obj : List (String × Value) → Value
deriving Repr

mutual

/-- Structural (Python `==`) equality on values. -/
def Value.beq : Value → Value → Bool
  | .null, .null => true
  | .bool a, .bool b => a == b
  | .num a, .num b => a == b
  | .str a, .str b => a == b
  | .bytes a, .bytes b => a == b
  | .list xs, .list ys => Value.beqList xs ys
  | .obj xs, .obj ys => Value.beqKVs xs ys
  | _, _ => false

/-- Elementwise equality on value lists. -/
def Value.beqList : List Value → List Value → Bool
  | [], [] => true
  | x :: xs, y :: ys => Value.beq x y && Value.beqList xs ys
  | _, _ => false

/-- Pairwise equality on dict entries (order-sensitive, as for the ordered
association lists used here). -/
def Value.beqKVs : List (String × Value) → List (String × Value) → Bool
  | [], [] => true
  | (k1, v1) :: xs, (k2, v2) :: ys => k1 == k2 && Value.beq v1 v2 && Value.beqKVs xs ys
  | _, _ => false

end

mutual

theorem Value.beq_iff : (a b : Value) → (Value.beq a b = true ↔ a = b)
  | .null, .null => by simp [Value.beq]
  | .bool _, .bool _ => by simp [Value.beq]
  | .num _, .num _ => by simp [Value.beq]
  | .str _, .str _ => by simp [Value.beq]
  | .bytes _, .bytes _ => by simp [Value.beq]
  | .list xs, .list ys => by simpa [Value.beq] using Value.beqList_iff xs ys
  | .obj xs, .obj ys => by simpa [Value.beq] using Value.beqKVs_iff xs ys
  | .null, .bool _ | .null, .num _ | .null, .str _ | .null, .bytes _ | .null, .list _ | .null, .obj _
  | .bool _, .null | .bool _, .num _ | .bool _, .str _ | .bool _, .bytes _ | .bool _, .list _ | .bool _, .obj _
  | .num _, .null | .num _, .bool _ | .num _, .str _ | .num _, .bytes _ | .num _, .list _ | .num _, .obj _
  | .str _, .null | .str _, .bool _ | .str _, .num _ | .str _, .bytes _ | .str _, .list _ | .str _, .obj _
  | .bytes _, .null | .bytes _, .bool _ | .bytes _, .num _ | .bytes _, .str _ | .bytes _, .list _ | .bytes _, .obj _
  | .list _, .null | .list _, .bool _ | .list _, .num _ | .list _, .str _ | .list _, .bytes _ | .list _, .obj _
  | .obj _, .null | .obj _, .bool _ | .obj _, .num _ | .obj _, .str _ | .obj _, .bytes _ | .obj _, .list _ => by
      simp [Value.beq]

theorem Value.beqList_iff : (xs ys : List Value) → (Value.beqList xs ys = true ↔ xs = ys)
  | [], [] => by simp [Value.beqList]
  | x :: xs, y :: ys => by
      simp [Value.beqList, Value.beq_iff x y, Value.beqList_iff xs ys]
  | [], _ :: _ => by simp [Value.beqList]
  | _ :: _, [] => by simp [Value.beqList]

theorem Value.beqKVs_iff : (xs ys : List (String × Value)) → (Value.beqKVs xs ys = true ↔ xs = ys)
  | [], [] => by simp [Value.beqKVs]
  | (_, v1) :: xs, (_, v2) :: ys => by
      simp [Value.beqKVs, Value.beq_iff v1 v2, Value.beqKVs_iff xs ys]
  | [], _ :: _ => by simp [Value.beqKVs]
  | _ :: _, [] => by simp [Value.beqKVs]

end

instance : DecidableEq Value := fun a b =>
  decidable_of_iff (Value.beq a b = true) (Value.beq_iff a b)

/-- Python truthiness (`if content:` etc.): `None`, `False`, `0`, and empty
strings/bytes/lists/dicts are falsy. -/
def Value.truthy : Value → Bool
  | .null => false
  | .bool b => b
  | .num n => n != 0
  | .str s => s != ""
  | .bytes s => s != ""
  | .list xs => !xs.isEmpty
  | .obj kvs => !kvs.isEmpty

/-- Whether a value can be put in a Python `set` (lists and dicts raise
`TypeError: unhashable type`). -/
def Value.isHashable : Value → Bool
  | .list _ => false
  | .obj _ => false
  | _ => true

/-- Whether the value is a dict. -/
def Value.isObj : Value → Bool
  | .obj _ => true
  | _ => false

/-- Dict lookup (first binding wins; Python dicts have unique keys). -/
def pyGet (kvs : List (String × Value)) (k : String) : Option Value :=
  (kvs.find? (fun p => p.1 == k)).map (fun p => p.2)

/-- `d[k] = v` on an insertion-ordered dict: overwrite in place when the key
exists, else append. -/
def dictSet (kvs : List (String × Value)) (k : String) (v : Value) :
    List (String × Value) :=
  if (kvs.find? (fun p => p.1 == k)).isSome then
    kvs.map (fun p => if p.1 == k then (p.1, v) else p)
  else
    kvs ++ [(k, v)]

/-- Whether `needle` is an initial segment of `hay`. -/
def listIsPre : List Char → List Char → Bool
  | [], _ => true
  | _ :: _, [] => false
  | a :: as, b :: bs => a == b && listIsPre as bs

/-- Whether `needle` occurs contiguously inside the second list. -/
def listInf (needle : List Char) : List Char → Bool
  | [] => needle.isEmpty
  | h :: t => listIsPre needle (h :: t) || listInf needle t

/-- Python `needle in hay` for strings. -/
def strContains (hay needle : String) : Bool :=
  listInf needle.toList hay.toList

/-- Truthiness of `response.content.strip()`: true exactly when the body
contains some non-whitespace character. -/
def contentTruthy (s : String) : Bool :=
  s.toList.any (fun c => !c.isWhitespace)

/-- Case-sensitive header lookup (`response.headers.get(k)`); responses in
the claims under study carry the canonical key spellings the source uses. -/
def headerGet (hs : List (String × String)) (k : String) : Option String :=
  (hs.find? (fun p => p.1 == k)).map (fun p => p.2)

/-- One HTTP response as seen by the client: status code, headers, raw body
bytes (`response.content`, as a string), and the result of `response.json()`
(`none` when the body is not parseable JSON, in which case `response.json()`
raises `ValueError`). -/
structure Response where
  status : Nat
  headers : List (String × String)
  content : String
  jsonBody : Option Value
deriving DecidableEq, Repr

/-- Error kinds of the exception hierarchy of the client
(`ZendeskError`/`CustomApiLibBaseError` with subclasses `AuthenticationError`
and `RateLimitError`). -/
inductive ZdKind where
  | base
  | authentication
  | rateLimit
deriving DecidableEq, Repr

/-- Python exceptions reachable in the modelled code paths.  `zendeskErr`
carries the constructor arguments `(response.content, code, response)` used at
zendesk_utils.py lines 629-633. -/
inductive PyError where
  | zendeskErr (kind : ZdKind) (message : String) (code : Nat) (response : Response)
  | requestExc
  | nameErr (name : String)
  | typeErr (msg : String)
  | attributeErr (msg : String)
  | valueErr (msg : String)
  | keyErr (msg : String)
deriving DecidableEq, Repr

/-- Entries of the `retry_on` set: an HTTP status code or one of the accepted
exception classes (`ZendeskError` and its subclasses, and
`requests.RequestException`). -/
inductive RetryCond where
  | code (n : Nat)
  | zendeskErrClass
  | authenticationErrClass
  | rateLimitErrClass
  | requestExcClass
deriving DecidableEq, Repr

/-- Outcome of one scripted HTTP exchange: either `requests.request` raises a
`requests.RequestException`, or it returns a response. -/
inductive HttpEvent where
  | exn
  | resp (r : Response)
deriving DecidableEq, Repr

/-- Observable side effects of the pagination loop: an HTTP request issued to
a URL, or a backoff sleep. -/
inductive Effect where
  | request (url : String)
  | sleep (seconds : Int)
deriving DecidableEq, Repr

/-- Result of running `_process_multiple_api_calls_with_retry` against a
finite transport script: normal return of the accumulated page results, a
propagating Python exception, or exhaustion of the script while the loop
still wanted another request. -/
inductive RunResult where
  | ok (results : List Value) (trace : List Effect)
  | raised (e : PyError) (trace : List Effect)
  | starved (results : List Value) (trace : List Effect)
deriving DecidableEq, Repr

/-- Per-call configuration of the pagination loop: the `get_all_pages`,
`complete_response` and `retval` parameters, plus the effective client
`_retry_on` and `_max_retries` fields consulted inside the loop. -/
structure LoopCfg where
  get_all_pages : Bool
  complete_response : Bool
  retval : Option String
  retry_on : List RetryCond
  max_retries : Nat
deriving DecidableEq, Repr

/-- Status text lookup: models the `http.client.responses` table consulted at
zendesk_utils.py line 695 for the codes exercised here. -/
def statusText (code : Nat) : String :=
  if code = 200 then "OK"
  else if code = 201 then "Created"
  else if code = 204 then "No Content"
  else if code = 422 then "Unprocessable Entity"
  else "Status"

/-- Status-code classification, zendesk_utils.py lines 625-633
(custom_apilib_base.py lines 313-321): codes in [200,300) and 422 are
accepted; 401 raises `AuthenticationError`, 429 raises `RateLimitError`, any
other code raises the base error, each constructed with
`(response.content, code, response)`. -/
def statusError (r : Response) : Option PyError :=
  if ¬(200 ≤ r.status ∧ r.status < 300) ∧ r.status ≠ 422 then
    if r.status = 401 then some (.zendeskErr .authentication r.content r.status r)
    else if r.status = 429 then some (.zendeskErr .rateLimit r.content r.status r)
    else some (.zendeskErr .base r.content r.status r)
  else none

/-- The retryable-failure classification of one attempt: a transport
exception, or the status-code error the attempt raised. -/
def attemptFailure : HttpEvent → Option PyError
  | .exn => some .requestExc
  | .resp r => statusError r

/-- `_handle_retry`, zendesk_utils.py lines 470-506 (custom_apilib_base.py
lines 147-183).  Its first statement evaluates `sys.exc_info()`, but neither
module imports `sys` (nor `time`, used further down for the `Retry-After`
backoff sleep), so in the source as written every call raises
a `NameError` naming `sys` before any of the retry-eligibility
logic or the sleep can run.  The parameters mirror the data the source method
would consult (`self._retry_on` and the response whose `Retry-After` header
feeds the sleep). -/
def handle_retry (_retryOn : List RetryCond) (_resp : Option Response) :
    Except PyError Bool :=
  .error (.nameErr "sys")

/-- `content.get(k, None)` as used for cursor and count extraction: dict
lookup defaulting to `None`; on any non-dict value the attribute access
raises `AttributeError` (no `get` attribute). -/
def pyObjGet (v : Value) (k : String) : Except PyError Value :=
  match v with
  | .obj kvs => .ok ((pyGet kvs k).getD .null)
  | _ => .error (.attributeErr "get")

/-- Python `x < n` against an int: ints compare numerically, bools as 0/1,
everything else (`None`, strings, lists, dicts) raises `TypeError`. -/
def pyLtNum (v : Value) (n : Int) : Except PyError Bool :=
  match v with
  | .num m => .ok (decide (m < n))
  | .bool b => .ok (decide ((if b then (1 : Int) else 0) < n))
  | _ => .error (.typeErr "unorderable types")

/-- Python `needle in x`: substring test on strings, membership on lists, key
membership on dicts; other values raise `TypeError`. -/
def pyContains (needle : String) : Value → Except PyError Bool
  | .str s => .ok (strContains s needle)
  | .list xs => .ok (decide ((Value.str needle) ∈ xs))
  | .obj kvs => .ok ((pyGet kvs needle).isSome)
  | _ => .error (.typeErr "argument is not iterable")

/-- The incremental-export cursor suppression, zendesk_utils.py lines 703-705
(custom_apilib_base.py lines 391-393):
`url = None if (url is not None and "incremental" in url and
content.get("count") < 1000) else url`, with Python short-circuit
evaluation. -/
def suppressIncremental (url content : Value) : Except PyError Value :=
  if url = Value.null then .ok url
  else
    match pyContains "incremental" url with
    | .error e => .error e
    | .ok hit =>
      if hit then
        match pyObjGet content "count" with
        | .error e => .error e
        | .ok cnt =>
          match pyLtNum cnt 1000 with
          | .error e => .error e
          | .ok lt => .ok (if lt then Value.null else url)
      else .ok url

/-- Body decoding and cursor derivation, zendesk_utils.py lines 644-666
(custom_apilib_base.py lines 332-354).  Given the response and the current
`url` variable, returns the `content` value and the new `url` value:
- empty (stripped) body: raw bytes, `url = None`;
- JSON content type: `response.json()` (a parse failure propagates as
  `ValueError`), then `url = content.get("next_page", None)`;
- text content type: try `response.json()` and the same cursor derivation,
  but a parse failure is caught and leaves `content` as the raw bytes — note
  that in that fallback `url` is left unchanged;
- any other content type: raw bytes, `url = None`.
The header access `response.headers["content-type"]` raises `KeyError` when
the header is missing (it is only reached when the body is non-empty). -/
def decodeContent (r : Response) (url : Value) : Except PyError (Value × Value) :=
  if !contentTruthy r.content then
    .ok (.bytes r.content, .null)
  else
    match headerGet r.headers "content-type" with
    | none => .error (.keyErr "content-type")
    | some ct =>
      if strContains ct "json" then
        match r.jsonBody with
        | some c =>
            (match pyObjGet c "next_page" with
             | .error e => .error e
             | .ok np => .ok (c, np))
        | none => .error (.valueErr "invalid json")
      else if strContains ct "text" then
        match r.jsonBody with
        | some c =>
            (match pyObjGet c "next_page" with
             | .error e => .error e
             | .ok np => .ok (c, np))
        | none => .ok (.bytes r.content, url)
      else
        .ok (.bytes r.content, .null)

/-- Per-page result selection, zendesk_utils.py lines 668-695
(custom_apilib_base.py lines 356-383).  With `complete_response` a dict of
the response, content and status is appended (the live `requests.Response`
object itself is outside the value model; `null` stands in for it).
Otherwise `retval` picks the content, status code, location header, or
headers; with no selector the location header is preferred, then a truthy
content, then the `http.client.responses` status text. -/
def selectResult (complete_response : Bool) (retval : Option String)
    (r : Response) (content : Value) : Value :=
  if complete_response then
    .obj [("response", .null), ("content", content), ("status", .num (Int.ofNat r.status))]
  else if retval = some "content" then content
  else if retval = some "code" then .num (Int.ofNat r.status)
  else if retval = some "location" then
    match headerGet r.headers "location" with
    | some l => .str l
    | none => .null
  else if retval = some "headers" then
    .obj (r.headers.map (fun p => (p.1, Value.str p.2)))
  else
    match headerGet r.headers "location" with
    | some l =>
        if l ≠ "" then .str l
        else if content.truthy then content else .str (statusText r.status)
    | none => if content.truthy then content else .str (statusText r.status)

/-- The request/pagination loop of `_process_multiple_api_calls_with_retry`,
zendesk_utils.py lines 596-709 (custom_apilib_base.py lines 284-397), run
against a finite script of per-attempt transport events.  State: remaining
script, the `url` variable (initially the string target, possibly `None` or a
decoded cursor value later), `request_count`, the `results` accumulator, and
the effect trace.  Each iteration issues one request to the current `url`
(which must be a string for `requests.request` to accept it):
- a transport exception retries via `_handle_retry` while
  `request_count <= max_retries` (note `continue` skips the reset of
  `request_count`), else re-raises;
- an error status raises per `statusError`, retrying the same way;
- on success the body is decoded, the selected result appended, the
  incremental suppression applied to the cursor, and the loop continues
  exactly when `get_all_pages` holds and the cursor is truthy, resetting
  `request_count` to 0. -/
def runLoop (cfg : LoopCfg) :
    List HttpEvent → Value → Nat → List Value → List Effect → RunResult
  | [], _, _, results, tr => .starved results tr
  | ev :: rest, url, rc0, results, tr =>
    match url with
    | .str u =>
      let tr := tr ++ [Effect.request u]
      let rc := rc0 + 1
      match ev with
      | .exn =>
          if rc ≤ cfg.max_retries then
            match handle_retry cfg.retry_on none with
            | .error e => .raised e tr
            | .ok _ => runLoop cfg rest (.str u) rc results tr
          else .raised .requestExc tr
      | .resp r =>
          match statusError r with
          | some e =>
              if rc ≤ cfg.max_retries then
                match handle_retry cfg.retry_on (some r) with
                | .error e2 => .raised e2 tr
                | .ok _ => runLoop cfg rest (.str u) rc results tr
              else .raised e tr
          | none =>
              match decodeContent r (.str u) with
              | .error e => .raised e tr
              | .ok (content, url1) =>
                  let results := results ++
                    [selectResult cfg.complete_response cfg.retval r content]
                  match suppressIncremental url1 content with
                  | .error e => .raised e tr
                  | .ok url2 =>
                      if cfg.get_all_pages && url2.truthy then
                        runLoop cfg rest url2 0 results tr
                      else .ok results tr
    | _ => .raised (.typeErr "url must be str") tr

/-- One step of the dict branch of the page combiner, zendesk_utils.py lines
764-772: for an entry `(k, v)` of a dict page, if `v` is a list the code runs
`combined_dict_results[k].extend(v)` — a `KeyError` (key absent) is caught
and the key set instead, but when the key is present with a non-list value
the `.extend` attribute access raises `AttributeError`; a non-list `v` simply
sets the key. -/
def combineKV (acc : List (String × Value)) (k : String) (v : Value) :
    Except PyError (List (String × Value)) :=
  match v with
  | .list vs =>
      match pyGet acc k with
      | some (.list old) => .ok (dictSet acc k (.list (old ++ vs)))
      | some _ => .error (.attributeErr "extend")
      | none => .ok (acc ++ [(k, v)])
  | _ => .ok (dictSet acc k v)

/-- Folds `combineKV` over the entries of one dict page. -/
def combineItems (acc : List (String × Value)) :
    List (String × Value) → Except PyError (List (String × Value))
  | [] => .ok acc
  | (k, v) :: rest =>
    match combineKV acc k v with
    | .error e => .error e
    | .ok acc2 => combineItems acc2 rest

/-- The shape-classification loop of `_process_response_data`,
zendesk_utils.py lines 756-775: list pages extend the combined list, dict
pages merge into the combined dict via `combineKV`, and any page of another
shape returns the raw results early (modelled by `none`). -/
def combineLoop (dacc : List (String × Value)) (lacc : List Value) :
    List Value → Except PyError (Option (List (String × Value) × List Value))
  | [] => .ok (some (dacc, lacc))
  | Value.list xs :: rest => combineLoop dacc (lacc ++ xs) rest
  | Value.obj kvs :: rest =>
    (match combineItems dacc kvs with
     | .error e => .error e
     | .ok dacc2 => combineLoop dacc2 lacc rest)
  | _ :: _ => .ok none

/-- `_process_response_data`, zendesk_utils.py lines 713-788
(custom_apilib_base.py lines 401-476): returns the raw results when
`get_all_pages` and `complete_response` are both set; returns the single
element of a one-element result list; otherwise builds `set(results)` — when
that succeeds (all pages hashable) a singleton set returns the first page and
anything else returns the raw results; when it raises `TypeError` (some page
is a list or dict) the pages are combined by shape, with mixed
list-and-dict accumulation, an early return, or an empty combination all
falling back to the raw results. -/
def process_response_data (data : List Value)
    (get_all_pages complete_response : Bool) : Except PyError Value :=
  if get_all_pages && complete_response then .ok (.list data)
  else if data.length = 1 then .ok (data.headD .null)
  else if data.all Value.isHashable then
    match data with
    | x :: rest => if rest.all (fun y => y == x) then .ok x else .ok (.list data)
    | [] => .ok (.list [])
  else
    match combineLoop [] [] data with
    | .error e => .error e
    | .ok none => .ok (.list data)
    | .ok (some (dacc, lacc)) =>
        if !lacc.isEmpty && !dacc.isEmpty then .ok (.list data)
        else if !dacc.isEmpty then .ok (.obj dacc)
        else if !lacc.isEmpty then .ok (.list lacc)
        else .ok (.list data)

/-- The retry-related client instance fields `_retry_on` and
`_max_retries`. -/
structure RetryState where
  retry_on : List RetryCond
  max_retries : Nat
deriving DecidableEq, Repr

/-- The `retry_on` property setter, zendesk_utils.py lines 412-439: validates
that every entry is an accepted exception class or a non-2xx integer status
code, raising `ValueError` otherwise (all the class entries representable
here are accepted subclasses).  A Python iterable argument maps to the list;
the setter wraps a single class/int into a singleton set. -/
def retry_on_setter (st : RetryState) (value : List RetryCond) :
    Except PyError RetryState :=
  if value.all (fun c =>
      match c with
      | .code n => !(200 ≤ n && n < 300)
      | _ => true) then
    .ok { st with retry_on := value }
  else
    .error (.valueErr "retry_on property must contain only non-2xx HTTP codes")

/-- The `max_retries` property setter, zendesk_utils.py lines 447-457:
coerces to int and raises `ValueError` on negative values. -/
def max_retries_setter (st : RetryState) (value : Int) :
    Except PyError RetryState :=
  if value < 0 then .error (.valueErr "max_retries must be non-negative integer")
  else .ok { st with max_retries := value.toNat }

/-- `_process_single_api_call`, zendesk_utils.py lines 509-550
(custom_apilib_base.py lines 186-227).  When the per-call `retry_on` is
truthy and `max_retries` nonzero, it saves `self._retry_on` and
`self._max_retries`, overwrites both through the property setters, and
re-enters `call_zendeskapi` (modelled by `inner`, a state transformer: that
inner call passes no per-call retry arguments, so it skips this guard and
runs the pagination loop under the overwritten fields, possibly mutating
state further); the `finally` block then writes the saved values back to both
fields whether the inner call returned or raised.  When the guard fails the
method falls through and returns `None`. -/
def process_single_api_call (st : RetryState) (retry_on : List RetryCond)
    (max_retries : Int)
    (inner : RetryState → Except PyError Value × RetryState) :
    Except PyError (Option Value) × RetryState :=
  if retry_on ≠ [] ∧ max_retries ≠ 0 then
    let saved_retry_on := st.retry_on
    let saved_max_retries := st.max_retries
    let step : Except PyError (Option Value) × RetryState :=
      match retry_on_setter st retry_on with
      | .error e => (.error e, st)
      | .ok st1 =>
          match max_retries_setter st1 max_retries with
          | .error e => (.error e, st1)
          | .ok st2 =>
              match inner st2 with
              | (.ok v, st3) => (.ok (some v), st3)
              | (.error e, st3) => (.error e, st3)
    (step.1, { step.2 with retry_on := saved_retry_on, max_retries := saved_max_retries })
  else
    (.ok none, st)

/-! ### Helper lemmas shared by the claim theorems -/

theorem statusError_eq_none (r : Response) :
    statusError r = none ↔ ((200 ≤ r.status ∧ r.status < 300) ∨ r.status = 422) := by
  unfold statusError
  split_ifs with h h1 h2 <;> simp <;> omega

theorem pyObjGet_not_obj (v : Value) (k : String) (h : v.isObj = false) :
    pyObjGet v k = .error (.attributeErr "get") := by
  cases v <;> simp [Value.isObj] at h ⊢ <;> rfl

theorem str_ne_empty_of_contains (u needle : String) (hne : needle ≠ "")
    (h : strContains u needle = true) : u ≠ "" := by
  intro hu
  subst hu
  have h2 : needle.toList.isEmpty = true := by simpa [strContains, listInf] using h
  rw [List.isEmpty_iff] at h2
  exact hne (String.ext (by simpa [String.toList] using h2))

theorem headerGet_self (k v : String) (rest : List (String × String)) :
    headerGet ((k, v) :: rest) k = some v := by
  simp [headerGet]

/-- C2: For every HTTP response received by one attempt, a status code in
[200,300) or exactly 422 is classified as success (no status error is raised
for the page), and every other status code raises an error carrying that
status code and the raw response: 401 raises the authentication error, 429
raises the rate-limit error, and any other non-success code raises the base
API error. -/
theorem c2_status_classification (r : Response) :
    (statusError r = none ↔ ((200 ≤ r.status ∧ r.status < 300) ∨ r.status = 422)) ∧
    (r.status = 401 →
      statusError r = some (.zendeskErr .authentication r.content r.status r)) ∧
    (r.status = 429 →
      statusError r = some (.zendeskErr .rateLimit r.content r.status r)) ∧
    (¬((200 ≤ r.status ∧ r.status < 300) ∨ r.status = 422) →
      r.status ≠ 401 → r.status ≠ 429 →
      statusError r = some (.zendeskErr .base r.content r.status r)) := by
  refine ⟨statusError_eq_none r, ?_, ?_, ?_⟩ <;>
    unfold statusError <;> split_ifs with h h1 h2 <;> simp_all <;> omega

theorem c2_witness :
    statusError ⟨401, [], "denied", none⟩
      = some (.zendeskErr .authentication "denied" 401 ⟨401, [], "denied", none⟩) :=
  (c2_status_classification ⟨401, [], "denied", none⟩).2.1 rfl

/-- C9: For every call that supplies a truthy per-call retry set and a
nonzero max-retries, the instance fields `_retry_on` and `_max_retries` equal
their pre-call values after `_process_single_api_call` finishes, whether the
inner call returns normally or raises: the `finally` block restores both
fields, so the temporary override never leaks into later calls. -/
theorem c9_retry_state_restored (st : RetryState) (ro : List RetryCond) (mr : Int)
    (inner : RetryState → Except PyError Value × RetryState)
    (hro : ro ≠ []) (hmr : mr ≠ 0) :
    (process_single_api_call st ro mr inner).2 = st := by
  unfold process_single_api_call
  rw [if_pos ⟨hro, hmr⟩]

theorem c9_witness :
    (process_single_api_call ⟨[], 0⟩ [.code 503] 3
        (fun _ => (.ok .null, ⟨[.code 404], 7⟩))).2 = ⟨[], 0⟩ :=
  c9_retry_state_restored ⟨[], 0⟩ [.code 503] 3
    (fun _ => (.ok .null, ⟨[.code 404], 7⟩)) (by decide) (by decide)

/-- C3 counterexample: for the pairwise-equal list pages [[1],[1],[1]], the
merge of `_process_response_data` returns the concatenation [1,1,1], not the
first page [1] — the `len(set(results)) == 1` shortcut never fires for lists
or dicts because building the set raises `TypeError`. -/
theorem c3_counterexample :
    process_response_data [.list [.num 1], .list [.num 1], .list [.num 1]] true false
      = .ok (.list [.num 1, .num 1, .num 1]) ∧
    Value.list [.num 1, .num 1, .num 1] ≠ Value.list [.num 1] :=
  ⟨rfl, by decide⟩

/-- C3 (amended): for every non-empty sequence of pairwise-equal pages that
are hashable scalars (not lists or mappings), merge returns the first page;
pairwise-equal list or mapping pages instead fall through to the shape
combiner (lists are concatenated). -/
theorem c3_amended (v : Value) (data : List Value) (gap : Bool)
    (hne : data ≠ []) (hall : ∀ x ∈ data, x = v) (hh : v.isHashable = true) :
    process_response_data data gap false = .ok v := by
  unfold process_response_data
  cases data with
  | nil => exact absurd rfl hne
  | cons x rest =>
    have hx : x = v := hall x (by simp)
    cases rest with
    | nil => simp [hx]
    | cons y rest2 =>
      have hy : y = v := hall y (by simp)
      have h2 : ∀ a ∈ rest2, a = v := fun a ha => hall a (by simp [ha])
      have h3 : ∀ a ∈ rest2, a.isHashable = true := fun a ha => by
        rw [h2 a ha]; exact hh
      simp [hx, hy, hh]
      rw [if_pos h3, if_pos h2]

theorem c3_amended_witness :
    process_response_data [.str "A", .str "A"] true false = .ok (.str "A") :=
  c3_amended (.str "A") [.str "A", .str "A"] true (by decide) (by decide) (by decide)

/-- C6: for two dict pages sharing a key whose values are lists, merge
combines key-by-key, extending the accumulated list under the key with the
list of the later page; in particular merging the pages a maps-to [1,2]
and a maps-to [3] gives
{a:[1,2,3]}. -/
theorem c6_obj_pages_merged_keywise (k : String) (xs ys : List Value) :
    process_response_data [.obj [(k, .list xs)], .obj [(k, .list ys)]] true false
      = .ok (.obj [(k, .list (xs ++ ys))]) := by
  unfold process_response_data
  simp [Value.isHashable, combineLoop, combineItems, combineKV, pyGet, dictSet]

/-- C5: with a zero retry budget (`max_retries = 0`), any retryable failure
on the first attempt — a network-level request exception or an error status
code — propagates immediately as the corresponding exception: the trace shows
the single request, no sleep, and no second request, whatever further
attempts the transport script could have served. -/
theorem c5_zero_budget_fails_immediately (cfg : LoopCfg)
    (hmr : cfg.max_retries = 0) (url0 : String) (ev : HttpEvent)
    (rest : List HttpEvent) (e : PyError) (hfail : attemptFailure ev = some e) :
    runLoop cfg (ev :: rest) (.str url0) 0 [] [] = .raised e [.request url0] := by
  cases ev with
  | exn =>
      have he : e = .requestExc := by
        simpa [attemptFailure] using hfail.symm
      subst he
      simp [runLoop, hmr]
  | resp r =>
      have hse : statusError r = some e := hfail
      simp [runLoop, hse, hmr]

theorem c5_witness :
    runLoop ⟨false, false, none, [], 0⟩ [.resp ⟨503, [], "oops", none⟩]
        (.str "https://zd.example/api/v2/tickets") 0 [] []
      = .raised (.zendeskErr .base "oops" 503 ⟨503, [], "oops", none⟩)
          [.request "https://zd.example/api/v2/tickets"] :=
  c5_zero_budget_fails_immediately ⟨false, false, none, [], 0⟩ rfl
    "https://zd.example/api/v2/tickets" (.resp ⟨503, [], "oops", none⟩) [] _ rfl

/-- C4 (code bug): with a retry budget of 1 and the rate-limit condition in
the retry set, an attempt answered 429 with header Retry-After: 2 does not
sleep and does not re-send the request — the first statement of the retry handler,
`sys.exc_info()` raises `NameError` because the module never imports `sys`
(nor `time`), so the run aborts after the single request with no sleep in the
trace. -/
theorem c4_retry_after_name_error :
    runLoop ⟨true, false, none, [.rateLimitErrClass, .code 429], 1⟩
        [.resp ⟨429, [("content-type", "application/json"), ("Retry-After", "2")],
                "limited", none⟩]
        (.str "https://zd.example/api/v2/incremental/tickets.json") 0 [] []
      = .raised (.nameErr "sys")
          [.request "https://zd.example/api/v2/incremental/tickets.json"] := rfl

/-- C10: for every successful page whose decoded JSON body is a mapping whose
next_page value is a string containing the substring "incremental" but with
no count key, the cursor-suppression check compares `None` with 1000 and the
call raises `TypeError` instead of continuing pagination or terminating
cleanly. -/
theorem c10_missing_count_raises_type_error (cfg : LoopCfg)
    (url0 ct body u : String) (kvs : List (String × Value)) (st : Nat)
    (hst : (200 ≤ st ∧ st < 300) ∨ st = 422)
    (hct : strContains ct "json" = true)
    (hbody : contentTruthy body = true)
    (hnp : pyGet kvs "next_page" = some (.str u))
    (hinc : strContains u "incremental" = true)
    (hcnt : pyGet kvs "count" = none) :
    runLoop cfg [.resp ⟨st, [("content-type", ct)], body, some (.obj kvs)⟩]
        (.str url0) 0 [] []
      = .raised (.typeErr "unorderable types") [.request url0] := by
  have h1 : statusError ⟨st, [("content-type", ct)], body, some (.obj kvs)⟩ = none :=
    (statusError_eq_none _).2 hst
  have h2 : decodeContent ⟨st, [("content-type", ct)], body, some (.obj kvs)⟩ (.str url0)
      = .ok (.obj kvs, .str u) := by
    simp [decodeContent, hbody, headerGet_self, hct, pyObjGet, hnp]
  have h3 : suppressIncremental (.str u) (.obj kvs)
      = .error (.typeErr "unorderable types") := by
    simp [suppressIncremental, pyContains, hinc, pyObjGet, hcnt, pyLtNum]
  simp [runLoop, h1, h2, h3]

theorem c10_witness :
    runLoop ⟨true, false, none, [], 0⟩
        [.resp ⟨200, [("content-type", "application/json")], "x",
                some (.obj [("next_page",
                  .str "https://zd.example/api/v2/incremental/tickets.json?start_time=2")])⟩]
        (.str "https://zd.example/api/v2/incremental/tickets.json?start_time=1") 0 [] []
      = .raised (.typeErr "unorderable types")
          [.request "https://zd.example/api/v2/incremental/tickets.json?start_time=1"] :=
  c10_missing_count_raises_type_error ⟨true, false, none, [], 0⟩ _ _ _ _ _ 200
    (by decide) (by decide) (by decide) rfl (by decide) rfl

/-- C1: for a paginated call (`get_all_pages` true) whose successful page
decodes to a mapping with a next_page URL containing "incremental" and a
numeric count: when count is below 1000 the cursor is forced to none and
pagination terminates after that page even though next_page was present, and
when count is 1000 or more pagination continues with the next request
targeting exactly the next_page URL. -/
theorem c1_incremental_suppression (cfg : LoopCfg) (hgap : cfg.get_all_pages = true)
    (url0 ct body u : String) (kvs : List (String × Value)) (n : Int) (st : Nat)
    (hst : (200 ≤ st ∧ st < 300) ∨ st = 422)
    (hct : strContains ct "json" = true)
    (hbody : contentTruthy body = true)
    (hnp : pyGet kvs "next_page" = some (.str u))
    (hinc : strContains u "incremental" = true)
    (hcnt : pyGet kvs "count" = some (.num n)) :
    (n < 1000 →
      runLoop cfg [.resp ⟨st, [("content-type", ct)], body, some (.obj kvs)⟩]
          (.str url0) 0 [] []
        = .ok [selectResult cfg.complete_response cfg.retval
                 ⟨st, [("content-type", ct)], body, some (.obj kvs)⟩ (.obj kvs)]
            [.request url0]) ∧
    (1000 ≤ n → ∀ ev2 : HttpEvent,
      runLoop cfg [.resp ⟨st, [("content-type", ct)], body, some (.obj kvs)⟩, ev2]
          (.str url0) 0 [] []
        = runLoop cfg [ev2] (.str u) 0
            [selectResult cfg.complete_response cfg.retval
               ⟨st, [("content-type", ct)], body, some (.obj kvs)⟩ (.obj kvs)]
            [.request url0]) := by
  have h1 : statusError ⟨st, [("content-type", ct)], body, some (.obj kvs)⟩ = none :=
    (statusError_eq_none _).2 hst
  have h2 : decodeContent ⟨st, [("content-type", ct)], body, some (.obj kvs)⟩ (.str url0)
      = .ok (.obj kvs, .str u) := by
    simp [decodeContent, hbody, headerGet_self, hct, pyObjGet, hnp]
  have hu : u ≠ "" := str_ne_empty_of_contains u "incremental" (by decide) hinc
  constructor
  · intro hlt
    have h3 : suppressIncremental (.str u) (.obj kvs) = .ok Value.null := by
      simp [suppressIncremental, pyContains, hinc, pyObjGet, hcnt, pyLtNum, hlt]
    simp [runLoop, h1, h2, h3, Value.truthy]
  · intro hge ev2
    have h3 : suppressIncremental (.str u) (.obj kvs) = .ok (.str u) := by
      simp [suppressIncremental, pyContains, hinc, pyObjGet, hcnt, pyLtNum]
      omega
    simp [runLoop, h1, h2, h3, Value.truthy, hgap, hu]

theorem c1_witness :
    runLoop ⟨true, false, none, [], 0⟩
        [.resp ⟨200, [("content-type", "application/json")], "x",
                some (.obj [("next_page",
                  .str "https://zd.example/api/v2/incremental/tickets.json?start_time=2"),
                  ("count", .num 500)])⟩]
        (.str "https://zd.example/api/v2/incremental/tickets.json?start_time=1") 0 [] []
      = .ok [.obj [("next_page",
                .str "https://zd.example/api/v2/incremental/tickets.json?start_time=2"),
                ("count", .num 500)]]
          [.request "https://zd.example/api/v2/incremental/tickets.json?start_time=1"] :=
  (c1_incremental_suppression ⟨true, false, none, [], 0⟩ rfl
    "https://zd.example/api/v2/incremental/tickets.json?start_time=1"
    "application/json" "x"
    "https://zd.example/api/v2/incremental/tickets.json?start_time=2"
    [("next_page",
      .str "https://zd.example/api/v2/incremental/tickets.json?start_time=2"),
     ("count", .num 500)] 500 200
    (by decide) (by decide) (by decide) rfl (by decide) rfl).1 (by decide)

/-- C7 counterexample: a successful page whose decoded body is a JSON array
(not a mapping) does not get a defaulted cursor — `content.get("next_page")`
raises `AttributeError` and the call fails instead of proceeding. -/
theorem c7_counterexample :
    runLoop ⟨true, false, none, [], 0⟩
        [.resp ⟨200, [("content-type", "application/json")], "[1, 2]",
                some (.list [.num 1, .num 2])⟩]
        (.str "https://zd.example/api/v2/tickets.json") 0 [] []
      = .raised (.attributeErr "get")
          [.request "https://zd.example/api/v2/tickets.json"] := rfl

/-- C7 (amended): for a successful page, the next-page cursor defaults to
none only when no JSON body is decoded at all (empty body, or a content type
that is neither JSON nor text), in which case cursor derivation cannot fail
and the call proceeds with the raw page value captured; but when a JSON
body is decoded and is not a mapping, cursor derivation raises
`AttributeError` and the call fails. -/
theorem c7_amended (cfg : LoopCfg) (url0 ct : String) (r : Response) (v : Value)
    (hst : statusError r = none) :
    ((headerGet r.headers "content-type" = some ct) →
     (strContains ct "json" = true ∨
       (strContains ct "json" = false ∧ strContains ct "text" = true)) →
     contentTruthy r.content = true →
     r.jsonBody = some v →
     v.isObj = false →
     runLoop cfg [.resp r] (.str url0) 0 [] []
       = .raised (.attributeErr "get") [.request url0]) ∧
    ((contentTruthy r.content = false ∨
      (headerGet r.headers "content-type" = some ct ∧
       strContains ct "json" = false ∧ strContains ct "text" = false)) →
     runLoop cfg [.resp r] (.str url0) 0 [] []
       = .ok [selectResult cfg.complete_response cfg.retval r (.bytes r.content)]
           [.request url0]) := by
  constructor
  · intro hcth hcj hbody hjb hv
    have h2 : decodeContent r (.str url0) = .error (.attributeErr "get") := by
      rcases hcj with hj | ⟨hj, ht⟩
      · simp [decodeContent, hbody, hcth, hj, hjb, pyObjGet_not_obj v _ hv]
      · simp [decodeContent, hbody, hcth, hj, ht, hjb, pyObjGet_not_obj v _ hv]
    simp [runLoop, hst, h2]
  · intro hb
    have h2 : decodeContent r (.str url0) = .ok (.bytes r.content, .null) := by
      rcases hb with hb | ⟨hcth, hj, ht⟩
      · simp [decodeContent, hb]
      · simp [decodeContent, hcth, hj, ht]
    have h3 : suppressIncremental Value.null (.bytes r.content) = .ok Value.null := rfl
    simp [runLoop, hst, h2, h3, Value.truthy]

theorem c7_witness :
    runLoop ⟨true, false, none, [], 0⟩
        [.resp ⟨200, [("content-type", "text/plain")], "5", some (.num 5)⟩]
        (.str "https://zd.example/api/v2/tickets") 0 [] []
      = .raised (.attributeErr "get") [.request "https://zd.example/api/v2/tickets"] :=
  (c7_amended ⟨true, false, none, [], 0⟩ "https://zd.example/api/v2/tickets"
    "text/plain" ⟨200, [("content-type", "text/plain")], "5", some (.num 5)⟩
    (.num 5) rfl).1 rfl (by right; exact ⟨by decide, by decide⟩)
    (by decide) rfl rfl

/-- C8 counterexample: on a successful page captured with complete_response
false and no retval selector, a response carrying both a Location header and
a decoded (truthy) JSON body captures the Location header, not the decoded
body — the location takes precedence, contrary to the claim. -/
theorem c8_counterexample :
    runLoop ⟨false, false, none, [], 0⟩
        [.resp ⟨201, [("content-type", "application/json"),
                      ("location", "https://zd.example/api/v2/tickets/42.json")],
                "body", some (.obj [("ticket", .str "T")])⟩]
        (.str "https://zd.example/api/v2/tickets") 0 [] []
      = .ok [.str "https://zd.example/api/v2/tickets/42.json"]
          [.request "https://zd.example/api/v2/tickets"] ∧
    Value.str "https://zd.example/api/v2/tickets/42.json"
      ≠ Value.obj [("ticket", .str "T")] :=
  ⟨rfl, by decide⟩

/-- C8 (amended): for a successful terminal page captured with
complete_response false and no retval selector, a non-empty Location header
takes precedence over the decoded body; the decoded body is captured only
when the Location header is absent, and the status-text fallback only when
the body is falsy as well. -/
theorem c8_amended (cfg : LoopCfg) (hcr : cfg.complete_response = false)
    (hrv : cfg.retval = none) (url0 ct : String) (r : Response)
    (kvs : List (String × Value))
    (hst : (200 ≤ r.status ∧ r.status < 300) ∨ r.status = 422)
    (hcth : headerGet r.headers "content-type" = some ct)
    (hct : strContains ct "json" = true)
    (hbody : contentTruthy r.content = true)
    (hjb : r.jsonBody = some (.obj kvs))
    (hnp : pyGet kvs "next_page" = none) :
    (∀ loc : String, headerGet r.headers "location" = some loc → loc ≠ "" →
      runLoop cfg [.resp r] (.str url0) 0 [] [] = .ok [.str loc] [.request url0]) ∧
    (headerGet r.headers "location" = none → kvs ≠ [] →
      runLoop cfg [.resp r] (.str url0) 0 [] []
        = .ok [.obj kvs] [.request url0]) ∧
    (headerGet r.headers "location" = none → kvs = [] →
      runLoop cfg [.resp r] (.str url0) 0 [] []
        = .ok [.str (statusText r.status)] [.request url0]) := by
  have h1 : statusError r = none := (statusError_eq_none _).2 hst
  have h2 : decodeContent r (.str url0) = .ok (.obj kvs, .null) := by
    simp [decodeContent, hbody, hcth, hct, hjb, pyObjGet, hnp]
  have h3 : suppressIncremental Value.null (.obj kvs) = .ok Value.null := rfl
  refine ⟨?_, ?_, ?_⟩
  · intro loc hloc hlne
    have h4 : selectResult cfg.complete_response cfg.retval r (.obj kvs) = .str loc := by
      simp [selectResult, hcr, hrv, hloc, hlne]
    simp [runLoop, h1, h2, h3, h4, Value.truthy]
  · intro hloc hkvs
    have h4 : selectResult cfg.complete_response cfg.retval r (.obj kvs) = .obj kvs := by
      simp [selectResult, hcr, hrv, hloc, Value.truthy, hkvs]
    simp [runLoop, h1, h2, h3, h4, Value.truthy]
  · intro hloc hkvs
    subst hkvs
    have h4 : selectResult cfg.complete_response cfg.retval r (.obj [])
        = .str (statusText r.status) := by
      simp [selectResult, hcr, hrv, hloc, Value.truthy]
    simp [runLoop, h1, h2, h3, h4, Value.truthy]

theorem c8_witness :
    runLoop ⟨false, false, none, [], 0⟩
        [.resp ⟨200, [("content-type", "application/json"),
                      ("location", "https://zd.example/loc.json")],
                "x", some (.obj [("n", .num 1)])⟩]
        (.str "https://zd.example/api") 0 [] []
      = .ok [.str "https://zd.example/loc.json"] [.request "https://zd.example/api"] :=
  (c8_amended ⟨false, false, none, [], 0⟩ rfl rfl "https://zd.example/api"
    "application/json"
    ⟨200, [("content-type", "application/json"),
           ("location", "https://zd.example/loc.json")],
     "x", some (.obj [("n", .num 1)])⟩
    [("n", .num 1)] (by decide) rfl (by decide) (by decide) rfl rfl).1
    "https://zd.example/loc.json" rfl (by decide)
